import Mathlib

/-!
Shallow embedding of the overloading utility (src/overloading.py): runtime
types, function metadata, Signature extraction, the per-name dispatch map of
OverloadedFunction, and the per-scope OverloadRegistry.  Python dicts are
modelled as association lists with insertion-order semantics (insert keeps the
original key and position when an equal key exists; lookup returns the value
of the first key that compares equal).  Exceptions are modelled with an error
type: raising before a state mutation leaves the state unchanged.
-/

set_option autoImplicit false

namespace Overloading

/-- Runtime type objects.  A handful of built-in types, user classes with a
numeric identity, and a constructor for a class derived from a base class,
which lets subclass relationships be expressed: the value of type
Ty.derived b i is an instance of a proper subclass of b, and Ty.derived b i
is a type object distinct from b. -/
inductive Ty where
  | int
  | str
  | bool
  | float
  | noneTy
  | cls (id : Nat)
  | derived (base : Ty) (id : Nat)
deriving DecidableEq

/-- The direct base class of a type, when it is a derived class. -/
def Ty.parent : Ty → Option Ty
  | .derived b _ => some b
  | _ => none

/-- A runtime value: its runtime type (what the built-in type() returns)
together with a payload distinguishing values of the same type. -/
structure Value where
  ty : Ty
  payload : Nat
deriving DecidableEq

/-- Exceptions the embedded code can raise: KeyError (from a failed
dictionary subscript such as fn.__annotations__[name]) and TypeError with
its message. -/
inductive PyErr where
  | keyError (key : String)
  | typeError (msg : String)
deriving DecidableEq

/-- Keyword arguments: an ordered name-to-value association. -/
abbrev KwArgs : Type := List (String × Value)

/-- The metadata of a Python function object used by the library, plus its
behaviour.  co_varnames lists the local variable names of the code object,
starting with the parameter names and followed by any body-local names;
co_argcount counts the declared positional parameters; annotations models
the __annotations__ dict (parameter and return annotations only, in
insertion order); defaults models __defaults__ (empty when None); impl is
the function body, which may itself raise. -/
structure PyFunction where
  name : String
  co_varnames : List String
  co_argcount : Nat
  annotations : List (String × Ty)
  defaults : List Value
  impl : List Value → KwArgs → Except PyErr Value

/-- Lookup in the __annotations__ dict: the first binding of the name. -/
def annLookup (anns : List (String × Ty)) (k : String) : Option Ty :=
  match anns with
  | [] => none
  | (n, t) :: rest => if n = k then some t else annLookup rest k

/-- The repr of a function object, as it appears when interpolated into an
error message.  CPython also prints the object address, which the model
omits; nothing in the library depends on it. -/
def funcRepr (fn : PyFunction) : String :=
  "<function " ++ fn.name ++ ">"

/-- Signature.__signature: the tuple built by subscripting __annotations__
at every co_varnames entry other than the name return, in order.  A name
without an annotation raises KeyError at the first offender, exactly as the
generator inside tuple(...) does. -/
def signatureSig (anns : List (String × Ty)) : List String → Except PyErr (List Ty)
  | [] => .ok []
  | n :: ns =>
    if n = "return" then signatureSig anns ns
    else
      match annLookup anns n with
      | none => .error (.keyError n)
      | some t =>
        match signatureSig anns ns with
        | .error e => .error e
        | .ok rest => .ok (t :: rest)

/-- Signature.__validate: the count of non-return entries of __annotations__
compared with co_argcount. -/
def signatureValid (fn : PyFunction) : Bool :=
  (fn.annotations.filter (fun p => p.1 ≠ "return")).length == fn.co_argcount

/-- The Signature object: sig is the extracted type tuple, optional the
defaults tuple, valid the full-annotation flag, return_ty the return
annotation and name the function name. -/
structure Signature where
  sig : List Ty
  optional : List Value
  valid : Bool
  return_ty : Option Ty
  name : String
deriving DecidableEq

/-- Signature.__init__: self.sig is computed first and can raise KeyError;
the remaining attributes are pure reads of the function metadata. -/
def Signature.make (fn : PyFunction) : Except PyErr Signature :=
  match signatureSig fn.annotations fn.co_varnames with
  | .error e => .error e
  | .ok s =>
    .ok { sig := s
        , optional := fn.defaults
        , valid := signatureValid fn
        , return_ty := annLookup fn.annotations "return"
        , name := fn.name }

/-- Signature.__hash__ is hash(self.sig); the model uses a concrete hash of
the type tuple.  Only its being a function of sig matters. -/
def Ty.code : Ty → Nat
  | .int => 0
  | .str => 1
  | .bool => 2
  | .float => 3
  | .noneTy => 4
  | .cls i => 5 + 2 * i
  | .derived b i => 6 + 2 * Nat.pair b.code i

/-- Hash of a tuple of types (stands in for the CPython tuple hash). -/
def tyTupleHash (l : List Ty) : Nat :=
  l.foldl (fun h t => h * 1000003 + t.code) 5381

/-- hash(Signature) = hash(self.sig). -/
def Signature.pyHash (s : Signature) : Nat :=
  tyTupleHash s.sig

/-- The outcome of the expression a == b for two Signature objects:
a.__eq__(b) evaluates a.sig == b, the tuple returns NotImplemented against a
Signature, and the reflected b.__eq__(a.sig) compares b.sig with a.sig. -/
def Signature.pyEq (a b : Signature) : Bool :=
  decide (b.sig = a.sig)

/-- The outcome of comparing a Signature with a bare type tuple: __eq__
compares self.sig with the tuple directly. -/
def Signature.pyEqTuple (a : Signature) (t : List Ty) : Bool :=
  decide (a.sig = t)

/-- The dispatch dict of an OverloadedFunction, Signature keys to function
values, in insertion order. -/
abbrev DispatchMap : Type := List (Signature × PyFunction)

/-- self.map[signature] = fn: a stored key that compares equal (by
Signature.__eq__, i.e. by sig tuple) has its value replaced, keeping the
stored key and its position; otherwise the pair is appended. -/
def dictInsert (m : DispatchMap) (k : Signature) (v : PyFunction) : DispatchMap :=
  match m with
  | [] => [(k, v)]
  | (k0, v0) :: rest =>
    if k0.pyEq k then (k0, v) :: rest
    else (k0, v0) :: dictInsert rest k v

/-- self.map.get(argsTypes, None): probing the dict with a bare type tuple;
each stored Signature key is compared with the tuple via Signature.__eq__.
The hash step only narrows candidates and never hides an equal key, since
equal sig tuples hash equally (see the hash contract theorem). -/
def dictGetByTypes (m : DispatchMap) (key : List Ty) : Option PyFunction :=
  match m with
  | [] => none
  | (k0, v0) :: rest =>
    if k0.pyEqTuple key then some v0 else dictGetByTypes rest key

/-- An OverloadedFunction: self.name (in the program always the first
function object registered under the name, since OverloadRegistry.overload
constructs OverloadedFunction(fn)) and the dispatch map. -/
structure OverloadedFunction where
  name : PyFunction
  map : DispatchMap

/-- OverloadedFunction.bind(name, fn).  The first parameter is never read.
Signature(fn) may raise KeyError; an invalid signature raises TypeError;
only after both checks is the map mutated.  Returns the state after the call
together with the exception raised, if any: a raise leaves the map
unchanged. -/
def OverloadedFunction.bind {α : Type} (self : OverloadedFunction) (nm : α)
    (fn : PyFunction) : OverloadedFunction × Option PyErr :=
  match Signature.make fn with
  | .error e => (self, some e)
  | .ok signature =>
    if signature.valid = false then
      (self, some (.typeError "All arguments must have type hints"))
    else
      ({ self with map := dictInsert self.map signature fn }, none)

/-- The TypeError raised by OverloadedFunction.__call__ when no signature
matches: the f-string interpolates self.name only. -/
def noMatchErr (nameFn : PyFunction) : PyErr :=
  .typeError ("Function " ++ funcRepr nameFn ++ " does not have matching signature")

/-- OverloadedFunction.__call__: the tuple of runtime types of the
positional arguments probes the map; a hit calls the stored function with
the original positional and keyword arguments; a miss raises. -/
def OverloadedFunction.call (self : OverloadedFunction) (args : List Value)
    (kwargs : KwArgs) : Except PyErr Value :=
  let argsTypes := args.map Value.ty
  match dictGetByTypes self.map argsTypes with
  | none => .error (noMatchErr self.name)
  | some matchingFn => matchingFn.impl args kwargs

/-- The per-scope registry: function name to OverloadedFunction, in
insertion order. -/
structure OverloadRegistry where
  overloaded_functions : List (String × OverloadedFunction)

/-- Lookup self.overloaded_functions.get(name, None). -/
def regLookup (m : List (String × OverloadedFunction)) (k : String) :
    Option OverloadedFunction :=
  match m with
  | [] => none
  | (n, v) :: rest => if n = k then some v else regLookup rest k

/-- self.overloaded_functions[name] = of. -/
def regInsert (m : List (String × OverloadedFunction)) (k : String)
    (v : OverloadedFunction) : List (String × OverloadedFunction) :=
  match m with
  | [] => [(k, v)]
  | (n, v0) :: rest =>
    if n = k then (n, v) :: rest else (n, v0) :: regInsert rest k v

/-- Models tuple(inspect.signature(fn).parameters.values()) by the declared
parameter names; OverloadRegistry.overload passes it as the first argument
of bind, which ignores it entirely (see the name-independence theorem). -/
def inspectSignatureParameters (fn : PyFunction) : List String :=
  fn.co_varnames.take fn.co_argcount

/-- OverloadRegistry.overload(fn): fetch or create the OverloadedFunction
for fn.__name__ (a fresh one is constructed as OverloadedFunction(fn) and
stored before bind runs), then bind fn.  Python mutates the stored object in
place, so the registry entry after the call is the post-bind state, also
when bind raises (in which case bind left the map unchanged).  Returns the
registry state, and the OverloadedFunction or the exception raised. -/
def OverloadRegistry.overload (self : OverloadRegistry) (fn : PyFunction) :
    OverloadRegistry × Except PyErr OverloadedFunction :=
  let name := fn.name
  let of0 :=
    match regLookup self.overloaded_functions name with
    | some o => o
    | none => OverloadedFunction.mk fn []
  match of0.bind (inspectSignatureParameters fn) fn with
  | (of1, some e) =>
    ({ overloaded_functions := regInsert self.overloaded_functions name of1 }, .error e)
  | (of1, none) =>
    ({ overloaded_functions := regInsert self.overloaded_functions name of1 }, .ok of1)

/-- The sigs of the stored keys are pairwise distinct (the at-most-one-
callable-per-type-tuple invariant of the dispatch map). -/
def mapSigsDistinct (m : DispatchMap) : Prop :=
  m.Pairwise (fun a b => a.1.sig ≠ b.1.sig)

/-! ### Concrete function objects, mirroring the demo.py log family,
used to instantiate the theorems on closed inputs. -/

/-- def log(msg: str) -> None, returning a tag value 1. -/
def logStrFn : PyFunction :=
  { name := "log", co_varnames := ["msg"], co_argcount := 1
  , annotations := [("msg", Ty.str), ("return", Ty.noneTy)], defaults := []
  , impl := fun _ _ => .ok ⟨Ty.noneTy, 1⟩ }

/-- def log(msg: str, level: int) -> None, returning a tag value 2. -/
def logStrIntFn : PyFunction :=
  { name := "log", co_varnames := ["msg", "level"], co_argcount := 2
  , annotations := [("msg", Ty.str), ("level", Ty.int), ("return", Ty.noneTy)]
  , defaults := []
  , impl := fun _ _ => .ok ⟨Ty.noneTy, 2⟩ }

/-- A second implementation with the (str, int) parameter tuple, returning
a tag value 3, used to exercise replacement of an identical type tuple. -/
def logStrIntFn2 : PyFunction :=
  { name := "log", co_varnames := ["msg", "level"], co_argcount := 2
  , annotations := [("msg", Ty.str), ("level", Ty.int), ("return", Ty.noneTy)]
  , defaults := []
  , impl := fun _ _ => .ok ⟨Ty.noneTy, 3⟩ }

/-- The Signature object Signature(logStrFn) constructs. -/
def logStrSig : Signature :=
  { sig := [Ty.str], optional := [], valid := true
  , return_ty := some Ty.noneTy, name := "log" }

/-- The Signature object Signature(logStrIntFn) constructs. -/
def logStrIntSig : Signature :=
  { sig := [Ty.str, Ty.int], optional := [], valid := true
  , return_ty := some Ty.noneTy, name := "log" }

/-- def h(x: int), returning a tag value 10; an overload declared on the
base type int. -/
def intParamFn : PyFunction :=
  { name := "h", co_varnames := ["x"], co_argcount := 1
  , annotations := [("x", Ty.int)], defaults := []
  , impl := fun _ _ => .ok ⟨Ty.int, 10⟩ }

/-- The Signature object Signature(intParamFn) constructs. -/
def intParamSig : Signature :=
  { sig := [Ty.int], optional := [], valid := true
  , return_ty := none, name := "h" }

/-- def f(x, y: int): the first positional parameter has no annotation. -/
def unannotatedParamFn : PyFunction :=
  { name := "f", co_varnames := ["x", "y"], co_argcount := 2
  , annotations := [("y", Ty.int)], defaults := []
  , impl := fun _ _ => .ok ⟨Ty.noneTy, 0⟩ }

/-- def g(x: int) with a body that assigns a local variable y: co_varnames
is (x, y) while only the parameter x is annotated. -/
def bodyLocalFn : PyFunction :=
  { name := "g", co_varnames := ["x", "y"], co_argcount := 1
  , annotations := [("x", Ty.int)], defaults := []
  , impl := fun _ _ => .ok ⟨Ty.int, 0⟩ }

/-- A str value. -/
def vStr : Value := ⟨Ty.str, 0⟩

/-- An int value. -/
def vInt : Value := ⟨Ty.int, 0⟩

/-- A value whose runtime type is a class derived from int. -/
def vSubInt : Value := ⟨Ty.derived Ty.int 0, 7⟩

/-- An OverloadedFunction holding the single-str log overload. -/
def logOF1 : OverloadedFunction :=
  { name := logStrFn, map := [(logStrSig, logStrFn)] }

/-- An OverloadedFunction for the name log with an empty dispatch map. -/
def emptyLogOF : OverloadedFunction :=
  { name := logStrFn, map := [] }

/-- An OverloadedFunction whose only overload is declared on the base type
int. -/
def intOF : OverloadedFunction :=
  { name := intParamFn, map := [(intParamSig, intParamFn)] }

/-! ### Dictionary lemmas -/

/-- Inserting a key and probing with its sig tuple finds the new value. -/
theorem dictGet_insert_self (m : DispatchMap) (k : Signature) (v : PyFunction) :
    dictGetByTypes (dictInsert m k v) k.sig = some v := by
  induction m with
  | nil => simp [dictInsert, dictGetByTypes, Signature.pyEqTuple]
  | cons hd tl ih =>
    obtain ⟨k0, v0⟩ := hd
    by_cases h : k0.sig = k.sig
    · simp [dictInsert, Signature.pyEq, dictGetByTypes, Signature.pyEqTuple, h]
    · simp only [dictInsert, Signature.pyEq]
      rw [if_neg (by simpa using fun hh => h hh.symm)]
      simpa [dictGetByTypes, Signature.pyEqTuple, h] using ih

/-- Inserting a key does not disturb probes at a different sig tuple. -/
theorem dictGet_insert_ne (m : DispatchMap) (k : Signature) (v : PyFunction)
    (t : List Ty) (h : k.sig ≠ t) :
    dictGetByTypes (dictInsert m k v) t = dictGetByTypes m t := by
  induction m with
  | nil => simp [dictInsert, dictGetByTypes, Signature.pyEqTuple, h]
  | cons hd tl ih =>
    obtain ⟨k0, v0⟩ := hd
    by_cases h0 : k0.sig = k.sig
    · simp [dictInsert, Signature.pyEq, dictGetByTypes, Signature.pyEqTuple, h0, h]
    · simp only [dictInsert, Signature.pyEq]
      rw [if_neg (by simpa using fun hh => h0 hh.symm)]
      by_cases ht : k0.sig = t
      · simp [dictGetByTypes, Signature.pyEqTuple, ht]
      · simp [dictGetByTypes, Signature.pyEqTuple, ht, ih]

/-- A probe whose tuple equals no stored key misses. -/
theorem dictGet_eq_none (m : DispatchMap) (t : List Ty)
    (h : ∀ kv ∈ m, kv.1.sig ≠ t) :
    dictGetByTypes m t = none := by
  induction m with
  | nil => rfl
  | cons hd tl ih =>
    obtain ⟨k0, v0⟩ := hd
    have h0 : k0.sig ≠ t := h (k0, v0) (by simp)
    simp only [dictGetByTypes, Signature.pyEqTuple]
    rw [if_neg (by simpa using h0)]
    exact ih fun kv hkv => h kv (List.mem_cons_of_mem _ hkv)

/-- Every entry of an updated map carries either an old key sig or the new
key sig. -/
theorem mem_dictInsert_sig (m : DispatchMap) (k : Signature) (v : PyFunction)
    (x : Signature × PyFunction) (hx : x ∈ dictInsert m k v) :
    x.1.sig ∈ m.map (fun p => p.1.sig) ∨ x.1.sig = k.sig := by
  induction m with
  | nil =>
    simp only [dictInsert, List.mem_singleton] at hx
    right; rw [hx]
  | cons hd tl ih =>
    obtain ⟨k0, v0⟩ := hd
    simp only [dictInsert] at hx
    by_cases h0 : (k0.pyEq k : Bool)
    · rw [if_pos h0] at hx
      rcases List.mem_cons.mp hx with h | h
      · left; rw [h]; simp
      · left; simp only [List.map_cons, List.mem_cons]
        right
        exact List.mem_map_of_mem (fun p => p.1.sig) h
    · rw [if_neg h0] at hx
      rcases List.mem_cons.mp hx with h | h
      · left; rw [h]; simp
      · rcases ih h with h | h
        · left; simp only [List.map_cons, List.mem_cons]; right; exact h
        · right; exact h

/-- Dict insertion preserves pairwise-distinct key sigs. -/
theorem dictInsert_mapSigsDistinct (m : DispatchMap) (k : Signature)
    (v : PyFunction) (h : mapSigsDistinct m) :
    mapSigsDistinct (dictInsert m k v) := by
  induction m with
  | nil => simp [dictInsert, mapSigsDistinct]
  | cons hd tl ih =>
    obtain ⟨k0, v0⟩ := hd
    rcases List.pairwise_cons.mp h with ⟨hhead, htl⟩
    by_cases h0 : (k0.pyEq k : Bool)
    · simp only [dictInsert, if_pos h0]
      exact List.pairwise_cons.mpr ⟨fun b hb => hhead b hb, htl⟩
    · simp only [dictInsert, if_neg h0]
      refine List.pairwise_cons.mpr ⟨fun b hb => ?_, ih htl⟩
      rcases mem_dictInsert_sig tl k v b hb with hin | hnew
      · rcases List.mem_map.mp hin with ⟨p, hp, hps⟩
        rw [← hps]
        exact hhead p hp
      · rw [hnew]
        intro hcon
        exact h0 (by simpa [Signature.pyEq] using hcon.symm)

/-- A derived class is a type object distinct from its base. -/
theorem ty_derived_ne_base (b : Ty) (i : Nat) : Ty.derived b i ≠ b := by
  intro h
  have hs := congrArg sizeOf h
  simp [Ty.derived.sizeOf_spec] at hs
  omega

/-! ### Claim theorems -/

/-- C10: OverloadedFunction.bind never reads its first (name) parameter:
for any two values n1 and n2 of any types, bind(n1, fn) and bind(n2, fn)
perform the identical map update and raise identically, so the registry
passing a tuple of inspect parameters instead of a name string has no
effect on the outcome. -/
theorem bind_independent_of_name_argument {α β : Type} (n1 : α) (n2 : β)
    (self : OverloadedFunction) (fn : PyFunction) :
    self.bind n1 fn = self.bind n2 fn := rfl

/-- C2: a call whose positional-argument runtime-type tuple equals no
registered key of the dispatch map — whatever the argument count, zero
included — evaluates to the no-matching-signature TypeError and never to
the output of a registered implementation. -/
theorem call_unregistered_tuple_raises (self : OverloadedFunction)
    (args : List Value) (kwargs : KwArgs)
    (h : ∀ kv ∈ self.map, kv.1.sig ≠ args.map Value.ty) :
    self.call args kwargs = .error (noMatchErr self.name) := by
  simp only [OverloadedFunction.call]
  rw [dictGet_eq_none self.map _ h]

/-- Witness for C2: a zero-argument call on a map that only registers the
one-str tuple raises. -/
theorem call_unregistered_tuple_raises_witness :
    (∀ kv ∈ logOF1.map, kv.1.sig ≠ ([] : List Value).map Value.ty) ∧
    logOF1.call [] [] = .error (noMatchErr logOF1.name) :=
  ⟨by decide, call_unregistered_tuple_raises logOF1 [] [] (by decide)⟩

/-- C4: dispatch is exact type identity.  A proper subclass is a distinct
type object, and an argument of a derived runtime type matches no overload
declared on the base type: when every registered tuple is the one-element
base tuple, the call raises instead of coercing or subtype-matching. -/
theorem dispatch_exact_type_identity (self : OverloadedFunction) (b : Ty)
    (v : Value) (kwargs : KwArgs)
    (hsub : Ty.parent v.ty = some b)
    (hkeys : ∀ kv ∈ self.map, kv.1.sig = [b]) :
    v.ty ≠ b ∧ self.call [v] kwargs = .error (noMatchErr self.name) := by
  have hne : v.ty ≠ b := by
    intro hcon
    rw [hcon] at hsub
    cases b with
    | derived b2 i =>
      simp only [Ty.parent, Option.some.injEq] at hsub
      exact ty_derived_ne_base b2 i hsub.symm
    | int => simp [Ty.parent] at hsub
    | str => simp [Ty.parent] at hsub
    | bool => simp [Ty.parent] at hsub
    | float => simp [Ty.parent] at hsub
    | noneTy => simp [Ty.parent] at hsub
    | cls i => simp [Ty.parent] at hsub
  refine ⟨hne, ?_⟩
  simp only [OverloadedFunction.call]
  rw [dictGet_eq_none]
  intro kv hkv
  rw [hkeys kv hkv]
  simp only [List.map_cons, List.map_nil, ne_eq, List.cons.injEq, and_true, not_and]
  intro hcon
  exact absurd hcon.symm hne

/-- Witness for C4: a value of a class derived from int does not match the
overload registered for int. -/
theorem dispatch_exact_type_identity_witness :
    vSubInt.ty ≠ Ty.int ∧ intOF.call [vSubInt] [] = .error (noMatchErr intOF.name) :=
  dispatch_exact_type_identity intOF Ty.int vSubInt [] (by decide) (by decide)

/-- C8: keyword arguments never influence which implementation is selected
(the match key is the positional runtime-type tuple alone), and a matched
implementation receives the original positional and keyword arguments
unmodified. -/
theorem call_kwargs_do_not_influence_dispatch (self : OverloadedFunction)
    (args : List Value) (kwargs1 kwargs2 : KwArgs) :
    (self.call args kwargs1 = .error (noMatchErr self.name) ∧
     self.call args kwargs2 = .error (noMatchErr self.name)) ∨
    (∃ fn, dictGetByTypes self.map (args.map Value.ty) = some fn ∧
      self.call args kwargs1 = fn.impl args kwargs1 ∧
      self.call args kwargs2 = fn.impl args kwargs2) := by
  cases hget : dictGetByTypes self.map (args.map Value.ty) with
  | none =>
    left
    constructor <;> simp [OverloadedFunction.call, hget]
  | some fn =>
    right
    exact ⟨fn, rfl, by simp [OverloadedFunction.call, hget],
      by simp [OverloadedFunction.call, hget]⟩

/-- Binding a function whose Signature construction succeeds with a valid
signature updates the map by dict insertion and raises nothing. -/
theorem bind_ok {α : Type} (self : OverloadedFunction) (nm : α)
    (fn : PyFunction) (s : Signature)
    (h : Signature.make fn = .ok s) (hv : s.valid = true) :
    self.bind nm fn = ({ self with map := dictInsert self.map s fn }, none) := by
  simp [OverloadedFunction.bind, h, hv]

/-- C1: after registering f1 and f2 with distinct, fully annotated
positional-type tuples, a call whose runtime-type tuple equals f1's tuple
returns exactly f1's output on the original arguments, and likewise for
f2. -/
theorem distinct_overloads_dispatch_exactly {α β : Type}
    (self : OverloadedFunction) (n1 : α) (n2 : β)
    (f1 f2 : PyFunction) (s1 s2 : Signature)
    (h1 : Signature.make f1 = .ok s1) (hv1 : s1.valid = true)
    (h2 : Signature.make f2 = .ok s2) (hv2 : s2.valid = true)
    (hne : s1.sig ≠ s2.sig)
    (args1 args2 : List Value) (kwargs1 kwargs2 : KwArgs)
    (ha1 : args1.map Value.ty = s1.sig) (ha2 : args2.map Value.ty = s2.sig) :
    ((self.bind n1 f1).1.bind n2 f2).1.call args1 kwargs1 =
      f1.impl args1 kwargs1 ∧
    ((self.bind n1 f1).1.bind n2 f2).1.call args2 kwargs2 =
      f2.impl args2 kwargs2 := by
  rw [bind_ok self n1 f1 s1 h1 hv1]
  rw [bind_ok _ n2 f2 s2 h2 hv2]
  constructor
  · simp only [OverloadedFunction.call, ha1]
    rw [dictGet_insert_ne _ _ _ _ fun hcon => hne hcon.symm]
    rw [dictGet_insert_self]
  · simp only [OverloadedFunction.call, ha2]
    rw [dictGet_insert_self]

/-- Witness for C1: with log(str) and log(str, int) registered, a str call
runs the first implementation and a (str, int) call the second. -/
theorem distinct_overloads_dispatch_exactly_witness :
    ((emptyLogOF.bind "log" logStrFn).1.bind "log" logStrIntFn).1.call
        [vStr] [] = logStrFn.impl [vStr] [] ∧
    ((emptyLogOF.bind "log" logStrFn).1.bind "log" logStrIntFn).1.call
        [vStr, vInt] [] = logStrIntFn.impl [vStr, vInt] [] :=
  distinct_overloads_dispatch_exactly emptyLogOF "log" "log"
    logStrFn logStrIntFn logStrSig logStrIntSig
    rfl rfl rfl rfl (by decide) [vStr] [vStr, vInt] [] [] rfl rfl

/-- C5: rebinding a function whose parameter-type tuple equals an already
registered tuple replaces the prior implementation — the most recently
registered function answers calls on that tuple — and the dispatch map
keeps at most one callable per distinct type tuple. -/
theorem rebind_identical_tuple_replaces {α β : Type}
    (self : OverloadedFunction) (n1 : α) (n2 : β)
    (f1 f2 : PyFunction) (s1 s2 : Signature)
    (h1 : Signature.make f1 = .ok s1) (hv1 : s1.valid = true)
    (h2 : Signature.make f2 = .ok s2) (hv2 : s2.valid = true)
    (heq : s1.sig = s2.sig)
    (args : List Value) (kwargs : KwArgs)
    (ha : args.map Value.ty = s2.sig)
    (hd : mapSigsDistinct self.map) :
    ((self.bind n1 f1).1.bind n2 f2).1.call args kwargs =
      f2.impl args kwargs ∧
    mapSigsDistinct ((self.bind n1 f1).1.bind n2 f2).1.map := by
  rw [bind_ok self n1 f1 s1 h1 hv1]
  rw [bind_ok _ n2 f2 s2 h2 hv2]
  constructor
  · simp only [OverloadedFunction.call, ha]
    rw [dictGet_insert_self]
  · exact dictInsert_mapSigsDistinct _ s2 f2
      (dictInsert_mapSigsDistinct _ s1 f1 hd)

/-- Witness for C5: registering a second (str, int) implementation and
calling with (str, int) arguments runs the second implementation. -/
theorem rebind_identical_tuple_replaces_witness :
    ((emptyLogOF.bind "log" logStrIntFn).1.bind "log" logStrIntFn2).1.call
        [vStr, vInt] [] = logStrIntFn2.impl [vStr, vInt] [] ∧
    mapSigsDistinct
      ((emptyLogOF.bind "log" logStrIntFn).1.bind "log" logStrIntFn2).1.map :=
  rebind_identical_tuple_replaces emptyLogOF "log" "log"
    logStrIntFn logStrIntFn2 logStrIntSig logStrIntSig
    rfl rfl rfl rfl rfl [vStr, vInt] [] rfl (by simp [emptyLogOF, mapSigsDistinct])

/-- C7: two Signatures compare equal exactly when their ordered type tuples
are equal (return type and name play no part), equal tuples give equal
hashes, a Signature compares equal to a bare type tuple equal to its sig,
and consequently a bare type tuple probes the dispatch map without
wrapping. -/
theorem signature_eq_hash_contract (a b : Signature) (t : List Ty) :
    (a.pyEq b = true ↔ a.sig = b.sig) ∧
    (a.sig = b.sig → a.pyHash = b.pyHash) ∧
    (a.pyEqTuple t = true ↔ a.sig = t) ∧
    (∀ (m : DispatchMap) (v : PyFunction),
      dictGetByTypes (dictInsert m a v) a.sig = some v) := by
  refine ⟨?_, ?_, ?_, ?_⟩
  · simp [Signature.pyEq, eq_comm]
  · intro h
    simp [Signature.pyHash, h]
  · simp [Signature.pyEqTuple]
  · intro m v
    exact dictGet_insert_self m a v

/-- Witness for C7: the contract instantiated at the two log signatures,
which differ in sig but share name and return type. -/
theorem signature_eq_hash_contract_witness :
    (logStrSig.pyEq logStrIntSig = true ↔ logStrSig.sig = logStrIntSig.sig) ∧
    (logStrSig.sig = logStrIntSig.sig → logStrSig.pyHash = logStrIntSig.pyHash) ∧
    (logStrSig.pyEqTuple [Ty.str] = true ↔ logStrSig.sig = [Ty.str]) ∧
    (∀ (m : DispatchMap) (v : PyFunction),
      dictGetByTypes (dictInsert m logStrSig v) logStrSig.sig = some v) :=
  signature_eq_hash_contract logStrSig logStrIntSig [Ty.str]

/-- C3 (code bug): registering def f(x, y: int) — the first positional
parameter unannotated — makes Signature.__signature raise KeyError at the
subscript fn.__annotations__[x], so bind fails with KeyError rather than
reaching the validity check whose TypeError carries the message about
missing type hints; the raise happens before the map write, so the
previously registered str overload is untouched and still dispatches. -/
theorem bind_missing_annotation_raises_keyerror :
    logOF1.bind "f" unannotatedParamFn =
      (logOF1, some (.keyError "x")) ∧
    PyErr.keyError "x" ≠ PyErr.typeError "All arguments must have type hints" ∧
    logOF1.call [vStr] [] = logStrFn.impl [vStr] [] :=
  ⟨rfl, by decide, rfl⟩

/-- C6 (code bug): Signature construction iterates co_varnames, which also
lists body-local names, so for def g(x: int) with a body local y — all
declared positional parameters annotated — construction raises KeyError
instead of succeeding; on a function without body locals it does succeed
and extracts the declared parameter types, defaults, validity flag, return
annotation and name. -/
theorem signature_keyerror_on_body_local :
    Signature.make bodyLocalFn = .error (.keyError "y") ∧
    Signature.make logStrFn = .ok logStrSig :=
  ⟨rfl, rfl⟩

/-- C9 counterexample: two calls that fail with different unmatched
type tuples — (int) and (str) — raise literally identical errors, so the
no-matching-signature error cannot identify the unmatched type tuple; its
message carries only the function repr. -/
theorem nomatch_error_omits_type_tuple :
    emptyLogOF.call [⟨Ty.int, 0⟩] [] = emptyLogOF.call [⟨Ty.str, 0⟩] [] ∧
    [Ty.int] ≠ [Ty.str] ∧
    emptyLogOF.call [⟨Ty.int, 0⟩] [] =
      .error (.typeError ("Function " ++ funcRepr logStrFn ++
        " does not have matching signature")) :=
  ⟨rfl, by decide, rfl⟩

/-- C9 amended: an unmatched call raises the TypeError whose message
interpolates the repr of the function object held in self.name — thereby
identifying the callable — and nothing else: calls with different unmatched
tuples produce the identical error. -/
theorem nomatch_error_identifies_name_only (self : OverloadedFunction)
    (args1 args2 : List Value) (kwargs1 kwargs2 : KwArgs)
    (h1 : ∀ kv ∈ self.map, kv.1.sig ≠ args1.map Value.ty)
    (h2 : ∀ kv ∈ self.map, kv.1.sig ≠ args2.map Value.ty) :
    self.call args1 kwargs1 = .error (noMatchErr self.name) ∧
    noMatchErr self.name =
      .typeError ("Function " ++ funcRepr self.name ++
        " does not have matching signature") ∧
    self.call args1 kwargs1 = self.call args2 kwargs2 := by
  have e1 : self.call args1 kwargs1 = .error (noMatchErr self.name) := by
    simp only [OverloadedFunction.call]
    rw [dictGet_eq_none self.map _ h1]
  have e2 : self.call args2 kwargs2 = .error (noMatchErr self.name) := by
    simp only [OverloadedFunction.call]
    rw [dictGet_eq_none self.map _ h2]
  exact ⟨e1, rfl, by rw [e1, e2]⟩

/-- Witness for the amended C9: unmatched (int) and (str) calls on the log
dispatcher raise the same name-bearing error. -/
theorem nomatch_error_identifies_name_only_witness :
    logOF1.call [vInt] [] = .error (noMatchErr logOF1.name) ∧
    noMatchErr logOF1.name =
      .typeError ("Function " ++ funcRepr logOF1.name ++
        " does not have matching signature") ∧
    logOF1.call [vInt] [] = logOF1.call [vInt, vInt] [] :=
  nomatch_error_identifies_name_only logOF1 [vInt] [vInt, vInt] [] []
    (by decide) (by decide)

end Overloading
